import Mathlib

/-!
# StreamForge donation pipeline — verification of the specification

Shallow embedding of the StreamForge backend core (TypeScript) in Lean 4:
the `GameStateManager` session state machine, the `DonationQueue` (FIFO +
per-kind cooldowns), the `RateLimiter` (global + per-actor fixed windows),
the `StreamForgeEventProcessor` tick, and the `GameWebSocketServer`
broadcast fan-out.  Timestamps (`Date.now()`) are modelled as `Nat`
parameters threaded explicitly; JavaScript numbers that can be negative
are modelled as `Int`.
-/

namespace StreamForge

/-- Embeds `status` field of `GameState` (`GameStatus` in `types/index.ts`). -/
inductive GameStatus where
  | RUNNING
  | PAUSED
  | STOPPED
deriving DecidableEq, Repr

/-- Embeds `DonationEventParameters` from `types/index.ts`: all fields optional. -/
structure DonationEventParameters where
  boostPercent : Option Int := none
  durationSeconds : Option Nat := none
  enemyType : Option String := none
  healAmount : Option Int := none
deriving DecidableEq, Repr

/-- Embeds `DonationEvent` from `types/index.ts`.  `eventType` is a `String`
because the dispatch code has a default branch for unknown kinds, and
`parameters` is an `Option` because a malformed payload can lack the
`parameters` object entirely (accessing a field of it then throws). -/
structure DonationEvent where
  donationId : String
  viewerId : String
  viewerName : String
  amount : Int
  eventType : String
  createdAt : Nat
  parameters : Option DonationEventParameters
deriving DecidableEq, Repr

/-- Embeds `PendingEnemySpawn` from `types/index.ts`. -/
structure PendingEnemySpawn where
  spawnId : String
  enemyType : String
  donorName : String
  donationId : String
  createdAt : Nat
deriving DecidableEq, Repr

/-- Embeds `GameState` from `types/index.ts`. -/
structure GameState where
  gameId : String
  status : GameStatus
  knightHealth : Int
  knightAttack : Int
  score : Int
  wave : Int
  boostActive : Bool
  boostExpiry : Nat
  activeDonations : List DonationEvent
  pendingEnemySpawns : List PendingEnemySpawn
  startTime : Nat
  lastUpdated : Nat
deriving DecidableEq, Repr

/-- Embeds `GameStateManager.BASE_KNIGHT_ATTACK` (constant `20`). -/
def BASE_KNIGHT_ATTACK : Int := 20

/-- JavaScript `Math.round x = ⌊x + 1/2⌋` (half toward `+∞`) applied to
`baseAttack * (1 + boostPercent / 100)` with `baseAttack = 20`:
`Math.round(20 + p/5) = ⌊(205 + 2p)/10⌋` for an integer percent `p`. -/
def boostedAttack (boostPercent : Int) : Int :=
  Int.fdiv (205 + 2 * boostPercent) 10

/-- Embeds `GameStateManager.createInitialState`.  `lastUpdated` is `Date.now()`,
passed here as `now`. -/
def createInitialState (gameId : String) (now : Nat) : GameState :=
  { gameId := gameId
    status := .STOPPED
    knightHealth := 100
    knightAttack := BASE_KNIGHT_ATTACK
    score := 0
    wave := 1
    boostActive := false
    boostExpiry := 0
    activeDonations := []
    pendingEnemySpawns := []
    startTime := 0
    lastUpdated := now }

/-- Embeds `GameStateManager.resetGame`: replaces the whole record with
`createInitialState(gameId)` (listener notification is modelled
separately, see `notifyAll`). -/
def resetGame (s : GameState) (now : Nat) : GameState :=
  createInitialState s.gameId now

/-- Embeds `GameStateManager.startGame`. -/
def startGame (s : GameState) (now : Nat) : GameState :=
  { s with status := .RUNNING, startTime := now, lastUpdated := now }

/-- Embeds `GameStateManager.pauseGame`. -/
def pauseGame (s : GameState) (now : Nat) : GameState :=
  { s with status := .PAUSED, lastUpdated := now }

/-- Embeds `GameStateManager.resumeGame`. -/
def resumeGame (s : GameState) (now : Nat) : GameState :=
  { s with status := .RUNNING, lastUpdated := now }

/-- Embeds `GameStateManager.stopGame`. -/
def stopGame (s : GameState) (now : Nat) : GameState :=
  { s with status := .STOPPED, lastUpdated := now }

/-- Embeds `GameStateManager.updateKnightHealth`: clamp to `[0,100]`; a clamped
value of `0` triggers `resetGame` in the same call. -/
def updateKnightHealth (s : GameState) (health : Int) (now : Nat) : GameState :=
  let clampedHealth := max 0 (min 100 health)
  if clampedHealth = 0 then resetGame s now
  else { s with knightHealth := clampedHealth, lastUpdated := now }

/-- Embeds `GameStateManager.updateKnightAttack`: clamp to `[0,100]`. -/
def updateKnightAttack (s : GameState) (attack : Int) (now : Nat) : GameState :=
  { s with knightAttack := max 0 (min 100 attack), lastUpdated := now }

/-- Embeds `GameStateManager.updateScore`: clamp below at `0`. -/
def updateScore (s : GameState) (score : Int) (now : Nat) : GameState :=
  { s with score := max 0 score, lastUpdated := now }

/-- Embeds `GameStateManager.addScore`. -/
def addScore (s : GameState) (points : Int) (now : Nat) : GameState :=
  updateScore s (s.score + points) now

/-- Embeds `GameStateManager.nextWave`. -/
def nextWave (s : GameState) (now : Nat) : GameState :=
  { s with wave := s.wave + 1, lastUpdated := now }

/-- Embeds `GameStateManager.applyBoost(durationSeconds, boostPercent = 50)`:
recompute the attack from the new percent alone, and extend the expiry
from the current one when a boost is active and unexpired, else start at
`now + durationSeconds*1000`. -/
def applyBoost (s : GameState) (durationSeconds : Nat) (boostPercent : Int)
    (now : Nat) : GameState :=
  let expiryTime := now + durationSeconds * 1000
  let finalExpiry :=
    if s.boostActive ∧ s.boostExpiry > now then
      s.boostExpiry + durationSeconds * 1000
    else expiryTime
  { s with knightAttack := boostedAttack boostPercent
           boostActive := true
           boostExpiry := finalExpiry
           lastUpdated := now }

/-- Embeds `GameStateManager.removeBoost`. -/
def removeBoost (s : GameState) (now : Nat) : GameState :=
  { s with knightAttack := BASE_KNIGHT_ATTACK
           boostActive := false
           boostExpiry := 0
           lastUpdated := now }

/-- Embeds `GameStateManager.checkBoostExpiry`. -/
def checkBoostExpiry (s : GameState) (now : Nat) : GameState :=
  if s.boostActive ∧ now ≥ s.boostExpiry then removeBoost s now else s

/-- Embeds `GameStateManager.addActiveDonation`. -/
def addActiveDonation (s : GameState) (d : DonationEvent) (now : Nat) :
    GameState :=
  { s with activeDonations := s.activeDonations ++ [d], lastUpdated := now }

/-- Embeds `GameStateManager.removeDonation`. -/
def removeDonation (s : GameState) (donationId : String) (now : Nat) :
    GameState :=
  { s with activeDonations :=
             s.activeDonations.filter (fun d => d.donationId ≠ donationId)
           lastUpdated := now }

/-- Embeds `GameStateManager.addEnemySpawn`.  The source generates `spawnId`
from `Date.now()` and `Math.random()`; it is passed in here. -/
def addEnemySpawn (s : GameState) (enemyType donorName donationId : String)
    (spawnId : String) (now : Nat) : GameState :=
  { s with pendingEnemySpawns :=
             s.pendingEnemySpawns ++
               [{ spawnId := spawnId, enemyType := enemyType
                  donorName := donorName, donationId := donationId
                  createdAt := now }]
           lastUpdated := now }

/-- Embeds `GameStateManager.removeEnemySpawn`. -/
def removeEnemySpawn (s : GameState) (spawnId : String) (now : Nat) :
    GameState :=
  { s with pendingEnemySpawns :=
             s.pendingEnemySpawns.filter (fun sp => sp.spawnId ≠ spawnId)
           lastUpdated := now }

/-- Embeds `GameStateUpdate` from `types/index.ts` (the validated update sent by
the game client). -/
structure GameStateUpdate where
  knightHealth : Option Int := none
  score : Option Int := none
  wave : Option Int := none
  status : Option GameStatus := none
deriving DecidableEq, Repr

/-- Embeds `GameStateManager.updateFromGame`: clamp each present field; a
validated health of `0` triggers `resetGame` in the same call. -/
def updateFromGame (s : GameState) (updates : GameStateUpdate) (now : Nat) :
    GameState :=
  let vHealth := updates.knightHealth.map (fun h => max 0 (min 100 h))
  let vScore := updates.score.map (fun sc => max 0 sc)
  let vWave := updates.wave.map (fun w => max 1 w)
  if vHealth = some 0 then resetGame s now
  else
    { s with knightHealth := vHealth.getD s.knightHealth
             score := vScore.getD s.score
             wave := vWave.getD s.wave
             status := updates.status.getD s.status
             lastUpdated := now }

/-! ## DonationQueue (`backend/src/donation-queue.ts`) -/

/-- The subset of `Config` (`types/index.ts`) used by the donation queue
and the rate limiter.  Cooldowns are in seconds, the rate window in ms. -/
structure Config where
  donationRateLimit : Nat
  donationRateWindow : Nat
  donationPerUserLimit : Nat
  boostCooldown : Nat
  spawnEnemyCooldown : Nat
  spawnDragonCooldown : Nat
deriving DecidableEq, Repr

/-- Embeds `CooldownState` from `donation-queue.ts`. -/
structure CooldownState where
  lastEventTime : Nat
  cooldownUntil : Nat
deriving DecidableEq, Repr

/-- The mutable state of a `DonationQueue`: the FIFO buffer and the
per-kind cooldown map (`Map<DonationEventType, CooldownState>`). -/
structure QueueState where
  queue : List DonationEvent
  cooldowns : String → Option CooldownState

/-- Embeds `DonationQueue.initializeCooldowns`: entries for the four known kinds,
each `{lastEventTime: 0, cooldownUntil: 0}`. -/
def initializeCooldowns : String → Option CooldownState := fun t =>
  if t = "BOOST" ∨ t = "SPAWN_ENEMY" ∨ t = "HEAL" ∨ t = "SPAWN_DRAGON" then
    some ({ lastEventTime := 0, cooldownUntil := 0 } : CooldownState)
  else none

/-- A fresh `DonationQueue` (constructor). -/
def initialQueueState : QueueState :=
  { queue := [], cooldowns := initializeCooldowns }

/-- Embeds `DonationQueue.getCooldownForEventType` (seconds). -/
def getCooldownForEventType (cfg : Config) (eventType : String) : Nat :=
  if eventType = "BOOST" then cfg.boostCooldown
  else if eventType = "SPAWN_ENEMY" then cfg.spawnEnemyCooldown
  else if eventType = "SPAWN_DRAGON" then cfg.spawnDragonCooldown
  else if eventType = "HEAL" then cfg.boostCooldown
  else 5

/-- Embeds `DonationQueue.canProcessEventType`: no entry means ready, otherwise
ready when `now ≥ cooldownUntil`. -/
def canProcessEventType (qs : QueueState) (eventType : String) (now : Nat) :
    Bool :=
  match qs.cooldowns eventType with
  | none => true
  | some c => now ≥ c.cooldownUntil

/-- The effective cooldown expiry of a kind (`0` when no entry exists),
so that `canProcessEventType` is exactly `now ≥ cooldownExpiry`. -/
def cooldownExpiry (qs : QueueState) (eventType : String) : Nat :=
  match qs.cooldowns eventType with
  | none => 0
  | some c => c.cooldownUntil

/-- Embeds `DonationQueue.updateCooldown`: set the kind's entry to
`{lastEventTime: now, cooldownUntil: now + cooldownSeconds*1000}`. -/
def updateCooldown (qs : QueueState) (cfg : Config) (eventType : String)
    (now : Nat) : QueueState :=
  let entry : CooldownState :=
    { lastEventTime := now
      cooldownUntil := now + getCooldownForEventType cfg eventType * 1000 }
  let newCooldowns : String → Option CooldownState := fun t =>
    if t = eventType then some entry else qs.cooldowns t
  { qs with cooldowns := newCooldowns }

/-- Embeds `DonationQueue.enqueue`: reject while the kind is on cooldown;
otherwise append and refresh the kind's cooldown.  Returns the new state
and the `success` flag. -/
def enqueue (qs : QueueState) (cfg : Config) (d : DonationEvent) (now : Nat) :
    QueueState × Bool :=
  if ¬ canProcessEventType qs d.eventType now then (qs, false)
  else
    (updateCooldown { qs with queue := qs.queue ++ [d] } cfg d.eventType now,
     true)

/-- Embeds `DonationQueue.dequeue`. -/
def dequeue (qs : QueueState) : QueueState × Option DonationEvent :=
  match qs.queue with
  | [] => (qs, none)
  | d :: rest => ({ qs with queue := rest }, some d)

/-! ## RateLimiter (`backend/src/middleware/rate-limiter.ts`) -/

/-- Embeds `RateLimitEntry` from `types/index.ts`. -/
structure RateLimitEntry where
  count : Nat
  windowStart : Nat
  lastRequest : Nat
deriving DecidableEq, Repr

/-- The mutable state of a `RateLimiter`: the global window and the
per-user window map. -/
structure RateLimiterState where
  globalState : RateLimitEntry
  userStates : String → Option RateLimitEntry

/-- A fresh `RateLimiter` (constructor, at time `now`). -/
def initialRateLimiterState (now : Nat) : RateLimiterState :=
  { globalState := { count := 0, windowStart := now, lastRequest := now }
    userStates := fun _ => none }

/-- Embeds `RateLimiter.updateGlobalCounter`: reset the global window wholesale
when it has expired; otherwise leave it untouched (note: this never
increments `count`). -/
def updateGlobalCounter (rl : RateLimiterState) (cfg : Config) (now : Nat) :
    RateLimiterState :=
  if now - rl.globalState.windowStart ≥ cfg.donationRateWindow then
    { rl with globalState := { count := 0, windowStart := now, lastRequest := now } }
  else rl

/-- Embeds `RateLimiter.getUserState`: the user's entry, reset to a fresh window
when missing or expired (a pure read; the map is not written). -/
def getUserState (rl : RateLimiterState) (cfg : Config) (userId : String)
    (now : Nat) : RateLimitEntry :=
  match rl.userStates userId with
  | none => { count := 0, windowStart := now, lastRequest := now }
  | some u =>
    if now - u.windowStart ≥ cfg.donationRateWindow then
      { count := 0, windowStart := now, lastRequest := now }
    else u

/-- Which of the two windows rejected a donation (`type` field of the
`RateLimitError` details). -/
inductive RateLimitRejection where
  | globalLimit
  | userLimit
deriving DecidableEq, Repr

/-- Embeds `RateLimiter.checkLimit`: check the global window (whose counter is
first rolled over via `updateGlobalCounter`, a mutation), then the
per-user window.  Returns the (possibly rolled-over) state and the
rejection, if any. -/
def checkLimit (rl : RateLimiterState) (cfg : Config) (userId : String)
    (now : Nat) : RateLimiterState × Option RateLimitRejection :=
  let rl1 := updateGlobalCounter rl cfg now
  if ¬ (rl1.globalState.count < cfg.donationRateLimit) then
    (rl1, some .globalLimit)
  else if ¬ ((getUserState rl1 cfg userId now).count < cfg.donationPerUserLimit) then
    (rl1, some .userLimit)
  else (rl1, none)

/-- Embeds `RateLimiter.recordDonation`: "Update global counter" via
`updateGlobalCounter` (which only rolls over an expired window), then
increment the user's counter. -/
def recordDonation (rl : RateLimiterState) (cfg : Config) (userId : String)
    (now : Nat) : RateLimiterState :=
  let rl1 := updateGlobalCounter rl cfg now
  let u := getUserState rl1 cfg userId now
  let newStates : String → Option RateLimitEntry := fun id =>
    if id = userId then some ({ u with lastRequest := now, count := u.count + 1 })
    else rl1.userStates id
  { rl1 with userStates := newStates }

/-! ## Admission gate

The spec's Admission Gate (§4.3) composes the Cooldown Tracker and the
Rate Limiter; in the repository only the two components exist
(`DonationQueue.enqueue` checks cooldowns, `RateLimiter.checkLimit`
has no caller), so the composition is modelled from the spec. -/

/-- Result of `tryAdmit`. -/
inductive AdmitResult where
  | admitted
  | rejectedCooldown
  | rejectedRateLimited
deriving DecidableEq, Repr

/-- Combined state of the gate's two collaborators. -/
structure GateState where
  dq : QueueState
  rl : RateLimiterState

/-- Modelled from the spec: the Admission Gate `tryAdmit(event)` of §4.3
is missing from the source (RateLimiter.checkLimit has no caller); per
the spec's order of checks it consults the cooldown for `event.kind`
first (reason `"cooldown"`), the rate limiter second (reason
`"rate_limited"`), and on success marks the cooldown used, records the
admission and enqueues — here via the source-embedded
`canProcessEventType`, `checkLimit`, `enqueue` and `recordDonation`. -/
def tryAdmit (g : GateState) (cfg : Config) (d : DonationEvent) (now : Nat) :
    GateState × AdmitResult :=
  if ¬ canProcessEventType g.dq d.eventType now then
    (g, .rejectedCooldown)
  else
    let res := checkLimit g.rl cfg d.viewerId now
    match res.2 with
    | some _ => ({ g with rl := res.1 }, .rejectedRateLimited)
    | none =>
      ({ dq := (enqueue g.dq cfg d now).1
         rl := recordDonation res.1 cfg d.viewerId now }, .admitted)

/-! ## Event processor (`StreamForgeEventProcessor`) -/

/-- JavaScript `x || d` for an optional numeric parameter: a missing
value *or* `0` (falsy) falls back to the default. -/
def jsOrInt (x : Option Int) (d : Int) : Int :=
  match x with
  | none => d
  | some v => if v = 0 then d else v

/-- JavaScript `x || d` for an optional `durationSeconds`. -/
def jsOrNat (x : Option Nat) (d : Nat) : Nat :=
  match x with
  | none => d
  | some v => if v = 0 then d else v

/-- JavaScript `x || d` for an optional string (empty string is falsy). -/
def jsOrStr (x : Option String) (d : String) : String :=
  match x with
  | none => d
  | some v => if v = "" then d else v

/-- Embeds `StreamForgeEventProcessor.applyEventToGameState`: dispatch on
`event.eventType`; the default branch returns the state unchanged.  The
branches for the four known kinds read `event.parameters.<field>`, which
throws a `TypeError` when a malformed event carries no `parameters`
object — modelled as `Except.error`.  `spawnId` stands for the random
identifier `addEnemySpawn` generates. -/
def applyEventToGameState (e : DonationEvent) (gs : GameState)
    (spawnId : String) (now : Nat) : Except String GameState :=
  if e.eventType = "BOOST" then
    match e.parameters with
    | none => .error "TypeError: cannot read parameters"
    | some ps =>
      .ok (applyBoost gs (jsOrNat ps.durationSeconds 600)
            (jsOrInt ps.boostPercent 50) now)
  else if e.eventType = "HEAL" then
    match e.parameters with
    | none => .error "TypeError: cannot read parameters"
    | some ps =>
      let healAmount := jsOrInt ps.healAmount 25
      let newHealth := min 100 (gs.knightHealth + healAmount)
      .ok (updateKnightHealth gs newHealth now)
  else if e.eventType = "SPAWN_ENEMY" then
    match e.parameters with
    | none => .error "TypeError: cannot read parameters"
    | some ps =>
      let enemyType := jsOrStr ps.enemyType "GOBLIN"
      let donorName := jsOrStr (some e.viewerName) "Anonymous"
      .ok (addEnemySpawn gs enemyType donorName e.donationId spawnId now)
  else if e.eventType = "SPAWN_DRAGON" then
    let donorName := jsOrStr (some e.viewerName) "Anonymous"
    .ok (addEnemySpawn gs "DRAGON" donorName e.donationId spawnId now)
  else
    .ok gs

/-- The processor's mutable state: the queue it drains, the game state it
mutates, and the `isProcessing` in-flight flag. -/
structure ProcessorState where
  queue : List DonationEvent
  game : GameState
  isProcessing : Bool
deriving Repr

/-- Embeds `StreamForgeEventProcessor.processNextEvent` (one tick): skip when a
previous tick is in flight or the queue is empty; otherwise dequeue one
event and apply it inside `try`/`catch`/`finally` — an application error
drops the event and leaves the game state as it was, and the `finally`
clears `isProcessing` on every path. -/
def processNextEvent (st : ProcessorState) (spawnId : String) (now : Nat) :
    ProcessorState :=
  if st.isProcessing ∨ st.queue.isEmpty then st
  else
    match st.queue with
    | [] => st
    | e :: rest =>
      match applyEventToGameState e st.game spawnId now with
      | .ok g' => { queue := rest, game := g', isProcessing := false }
      | .error _ => { queue := rest, game := st.game, isProcessing := false }

/-! ## State-change listeners (`GameStateManager.setState` / `resetGame`) -/

/-- A subscribed state-change listener; it may throw (`Except.error`). -/
abbrev Listener : Type := GameState → Except String Unit

/-- The notification loop shared by `setState` and `resetGame`:
`listeners.forEach` with a `try`/`catch` around each call, so every
listener is invoked with the new snapshot and a throw is confined to its
own iteration. -/
def notifyAll (listeners : List Listener) (s : GameState) :
    List (Except String Unit) :=
  listeners.map (fun l => l s)

/-- The partial update object passed to `GameStateManager.setState`
(`Partial<GameState>` restricted to the fields the manager writes). -/
structure GameStatePatch where
  status : Option GameStatus := none
  knightHealth : Option Int := none
  knightAttack : Option Int := none
  score : Option Int := none
  wave : Option Int := none
  boostActive : Option Bool := none
  boostExpiry : Option Nat := none
  activeDonations : Option (List DonationEvent) := none
  pendingEnemySpawns : Option (List PendingEnemySpawn) := none
  startTime : Option Nat := none

/-- The object spread `{...this.gameState, ...updates, lastUpdated: Date.now()}`. -/
def applyPatch (s : GameState) (p : GameStatePatch) (now : Nat) : GameState :=
  { s with status := p.status.getD s.status
           knightHealth := p.knightHealth.getD s.knightHealth
           knightAttack := p.knightAttack.getD s.knightAttack
           score := p.score.getD s.score
           wave := p.wave.getD s.wave
           boostActive := p.boostActive.getD s.boostActive
           boostExpiry := p.boostExpiry.getD s.boostExpiry
           activeDonations := p.activeDonations.getD s.activeDonations
           pendingEnemySpawns := p.pendingEnemySpawns.getD s.pendingEnemySpawns
           startTime := p.startTime.getD s.startTime
           lastUpdated := now }

/-- Embeds `GameStateManager.setState`: commit the merged state, then notify
every listener with the new snapshot (each call guarded by its own
`try`/`catch`).  Returns the committed state and the listener outcomes;
the public operations then return `getState()`, i.e. the first
component. -/
def setState (s : GameState) (p : GameStatePatch) (listeners : List Listener)
    (now : Nat) : GameState × List (Except String Unit) :=
  let s' := applyPatch s p now
  (s', notifyAll listeners s')

/-! ## Broadcast layer (`GameWebSocketServer`) -/

/-- A connected subscriber as the broadcast loop sees it: the
`ConnectionState.clientType` (role, `"unknown"` until identified) and
whether the socket's `readyState` is `OPEN`. -/
structure Client where
  clientId : String
  clientType : String
  isOpen : Bool
deriving DecidableEq, Repr

/-- Embeds `GameWebSocketServer.broadcast`: write the serialized message to
every connected socket, skipping those whose client type matches
`options.excludeType`; a non-open socket among the non-excluded is
marked dead instead.  Returns (recipients, dead clients). -/
def broadcast (clients : List Client) (excludeType : Option String) :
    List Client × List Client :=
  let excluded : Client → Bool := fun c =>
    match excludeType with
    | some t => c.clientType = t
    | none => false
  (clients.filter (fun c => !excluded c && c.isOpen),
   clients.filter (fun c => !excluded c && !c.isOpen))

/-- Embeds `GameWebSocketServer.broadcastGameState`: a `game_state_broadcast`
message sent through `broadcast` with `excludeType: "game"`, on every
state change (the manager's subscribe callback), whatever triggered it. -/
def broadcastGameState (clients : List Client) : List Client × List Client :=
  broadcast clients (some "game")

/-! ## Operation sequences over the session state machine -/

/-- One mutating operation of `GameStateManager`, with its arguments.
`healEvent` is the processor's HEAL path (`applyHealEvent`), which
computes `min(100, health + amount)` before calling
`updateKnightHealth`. -/
inductive Op where
  | startGame
  | pauseGame
  | resumeGame
  | stopGame
  | resetGame
  | updateKnightHealth (health : Int)
  | updateKnightAttack (attack : Int)
  | updateScore (score : Int)
  | addScore (points : Int)
  | nextWave
  | applyBoost (durationSeconds : Nat) (boostPercent : Int)
  | removeBoost
  | checkBoostExpiry
  | addActiveDonation (d : DonationEvent)
  | removeDonation (donationId : String)
  | addEnemySpawn (enemyType donorName donationId spawnId : String)
  | removeEnemySpawn (spawnId : String)
  | updateFromGame (u : GameStateUpdate)
  | healEvent (amount : Int)

/-- Apply one operation at time `now`. -/
def step (s : GameState) (op : Op) (now : Nat) : GameState :=
  match op with
  | .startGame => startGame s now
  | .pauseGame => pauseGame s now
  | .resumeGame => resumeGame s now
  | .stopGame => stopGame s now
  | .resetGame => resetGame s now
  | .updateKnightHealth h => updateKnightHealth s h now
  | .updateKnightAttack a => updateKnightAttack s a now
  | .updateScore sc => updateScore s sc now
  | .addScore p => addScore s p now
  | .nextWave => nextWave s now
  | .applyBoost d p => applyBoost s d p now
  | .removeBoost => removeBoost s now
  | .checkBoostExpiry => checkBoostExpiry s now
  | .addActiveDonation d => addActiveDonation s d now
  | .removeDonation id => removeDonation s id now
  | .addEnemySpawn et dn di si => addEnemySpawn s et dn di si now
  | .removeEnemySpawn si => removeEnemySpawn s si now
  | .updateFromGame u => updateFromGame s u now
  | .healEvent amt => updateKnightHealth s (min 100 (s.knightHealth + amt)) now

/-- Run a timed sequence of operations. -/
def run (s : GameState) (ops : List (Op × Nat)) : GameState :=
  match ops with
  | [] => s
  | (op, t) :: rest => run (step s op t) rest

/-- The health invariant: `knightHealth ∈ [0, 100]`. -/
def healthInBounds (s : GameState) : Prop :=
  0 ≤ s.knightHealth ∧ s.knightHealth ≤ 100

/-- The attack invariant: `knightAttack ∈ [0, 100]` (the bound documented
on the field in `types/index.ts`). -/
def attackInBounds (s : GameState) : Prop :=
  0 ≤ s.knightAttack ∧ s.knightAttack ≤ 100

/-- A boost percent for which `Math.round(20*(1+p/100))` stays in
`[0, 100]`: the operation is bound-safe only on this range. -/
def boostOK (op : Op) : Prop :=
  match op with
  | .applyBoost _ p => 0 ≤ p ∧ p ≤ 400
  | _ => True

instance : DecidablePred boostOK := fun op => by
  unfold boostOK
  cases op <;> infer_instance

/-! ## Theorems -/

/-- C1: a boost applied while a boost is active and unexpired extends the
expiry by `durationSeconds*1000` from the current expiry; otherwise the
new expiry is `now + durationSeconds*1000`; in both cases the attack is
recomputed from the new call's percent alone (last-writer-wins),
as `Math.round(baseAttack * (1 + boostPercent/100))`. -/
theorem applyBoost_stacking (s : GameState) (d : Nat) (p : Int) (now : Nat) :
    (s.boostActive = true → now < s.boostExpiry →
      (applyBoost s d p now).boostExpiry = s.boostExpiry + d * 1000) ∧
    ((s.boostActive = false ∨ s.boostExpiry ≤ now) →
      (applyBoost s d p now).boostExpiry = now + d * 1000) ∧
    (applyBoost s d p now).knightAttack = boostedAttack p ∧
    (applyBoost s d p now).boostActive = true := by
  refine ⟨?_, ?_, ?_, ?_⟩
  · intro hA hE
    unfold applyBoost
    dsimp only
    rw [if_pos ⟨hA, hE⟩]
  · intro h
    unfold applyBoost
    dsimp only
    rw [if_neg]
    rintro ⟨hA, hE⟩
    rcases h with h | h
    · rw [h] at hA; exact Bool.false_ne_true hA
    · omega
  · rfl
  · rfl

/-- Witness for C1: BOOST(50%, 600 s) at t=1000 then BOOST(75%, 300 s) at
t=2000 extends the expiry by 300 s from the original expiry 601000, and
the percent of the second call wins (attack 35 = round(20·1.75)). -/
theorem applyBoost_stacking_witness :
    (applyBoost (applyBoost (createInitialState "game-001" 0) 600 50 1000)
      300 75 2000).boostExpiry =
        (applyBoost (createInitialState "game-001" 0) 600 50 1000).boostExpiry
          + 300 * 1000 ∧
    (applyBoost (createInitialState "game-001" 0) 600 50 1000).boostExpiry =
      1000 + 600 * 1000 ∧
    (applyBoost (applyBoost (createInitialState "game-001" 0) 600 50 1000)
      300 75 2000).knightAttack = 35 :=
  ⟨(applyBoost_stacking (applyBoost (createInitialState "game-001" 0) 600 50 1000)
      300 75 2000).1 (by decide) (by decide),
   (applyBoost_stacking (createInitialState "game-001" 0) 600 50 1000).2.1
      (Or.inl rfl),
   by
     rw [(applyBoost_stacking (applyBoost (createInitialState "game-001" 0)
        600 50 1000) 300 75 2000).2.2.1]
     decide⟩

/-- C2: any call that drives the clamped health to 0 — a direct
`updateKnightHealth` (used by the heal effect) or a validated
`updateFromGame` — performs the full reset in the same call, and the
resulting snapshot is `createInitialState` in both cases, with score 0,
wave 1, boost inactive, no pending spawns, health 100. -/
theorem death_reset_snapshot (s : GameState) (h : Int) (u : GameStateUpdate)
    (now : Nat) :
    (max 0 (min 100 h) = 0 →
      updateKnightHealth s h now = createInitialState s.gameId now) ∧
    (u.knightHealth.map (fun x => max 0 (min 100 x)) = some 0 →
      updateFromGame s u now = createInitialState s.gameId now) ∧
    (createInitialState s.gameId now).score = 0 ∧
    (createInitialState s.gameId now).wave = 1 ∧
    (createInitialState s.gameId now).boostActive = false ∧
    (createInitialState s.gameId now).pendingEnemySpawns = [] ∧
    (createInitialState s.gameId now).knightHealth = 100 := by
  refine ⟨?_, ?_, rfl, rfl, rfl, rfl, rfl⟩
  · intro hc
    unfold updateKnightHealth
    rw [if_pos hc]
    rfl
  · intro hc
    unfold updateFromGame
    rw [if_pos hc]
    rfl

/-- Witness for C2: from a mid-game state, health −5 via
`updateKnightHealth` and a client report of health 0 via `updateFromGame`
both yield the identical reset snapshot. -/
theorem death_reset_snapshot_witness :
    updateKnightHealth
        ({ createInitialState "game-001" 0 with
            score := 7, wave := 3, boostActive := true, knightHealth := 50 })
        (-5) 9 = createInitialState "game-001" 9 ∧
    updateFromGame
        ({ createInitialState "game-001" 0 with
            score := 7, wave := 3, boostActive := true, knightHealth := 50 })
        { knightHealth := some 0 } 9 = createInitialState "game-001" 9 ∧
    (createInitialState "game-001" 9).score = 0 ∧
    (createInitialState "game-001" 9).wave = 1 :=
  ⟨(death_reset_snapshot
      ({ createInitialState "game-001" 0 with
          score := 7, wave := 3, boostActive := true, knightHealth := 50 })
      (-5) { knightHealth := some 0 } 9).1 (by decide),
   (death_reset_snapshot
      ({ createInitialState "game-001" 0 with
          score := 7, wave := 3, boostActive := true, knightHealth := 50 })
      (-5) { knightHealth := some 0 } 9).2.1 rfl,
   rfl, rfl⟩

/-- C9: every reset replaces the entire state record with
`createInitialState`, whose `status` is STOPPED and `startTime` is 0; in
particular a death while the session is RUNNING leaves it stopped. -/
theorem reset_reinitializes_whole_record (s : GameState) (h : Int)
    (now : Nat) :
    resetGame s now = createInitialState s.gameId now ∧
    (resetGame s now).status = GameStatus.STOPPED ∧
    (resetGame s now).startTime = 0 ∧
    (s.status = GameStatus.RUNNING → max 0 (min 100 h) = 0 →
      (updateKnightHealth s h now).status = GameStatus.STOPPED ∧
      (updateKnightHealth s h now).startTime = 0) := by
  refine ⟨rfl, rfl, rfl, ?_⟩
  intro _ hc
  unfold updateKnightHealth
  rw [if_pos hc]
  exact ⟨rfl, rfl⟩

/-- Witness for C9: a RUNNING session whose knight takes lethal damage is
left STOPPED with `startTime = 0`. -/
theorem reset_reinitializes_whole_record_witness :
    (updateKnightHealth
        ({ createInitialState "game-001" 0 with
            status := GameStatus.RUNNING, startTime := 42, knightHealth := 10 })
        0 77).status = GameStatus.STOPPED ∧
    (updateKnightHealth
        ({ createInitialState "game-001" 0 with
            status := GameStatus.RUNNING, startTime := 42, knightHealth := 10 })
        0 77).startTime = 0 :=
  (reset_reinitializes_whole_record
      ({ createInitialState "game-001" 0 with
          status := GameStatus.RUNNING, startTime := 42, knightHealth := 10 })
      0 77).2.2.2 rfl (by decide)

/-- Bounds of `Math.round(20*(1+p/100))` for a percent in `[0, 400]`. -/
lemma boostedAttack_bounds {p : Int} (h0 : 0 ≤ p) (h4 : p ≤ 400) :
    0 ≤ boostedAttack p ∧ boostedAttack p ≤ 100 := by
  unfold boostedAttack
  rw [Int.fdiv_eq_ediv _ (by omega)]
  omega

/-- Both numeric invariants together. -/
def stateInBounds (s : GameState) : Prop :=
  healthInBounds s ∧ attackInBounds s

/-- One operation preserves health and attack bounds, provided a boost's
percent lies in the bound-safe range `[0, 400]`. -/
lemma stateInBounds_step {s : GameState} (op : Op) (now : Nat)
    (hs : stateInBounds s) (hop : boostOK op) :
    stateInBounds (step s op now) := by
  obtain ⟨⟨hh0, hh1⟩, ha0, ha1⟩ := hs
  have hinit : ∀ (gid : String) (t : Nat),
      stateInBounds (createInitialState gid t) := by
    intro gid t
    refine ⟨⟨?_, ?_⟩, ?_, ?_⟩ <;> norm_num [createInitialState,
      healthInBounds, attackInBounds, BASE_KNIGHT_ATTACK]
  cases op with
  | startGame => exact ⟨⟨hh0, hh1⟩, ha0, ha1⟩
  | pauseGame => exact ⟨⟨hh0, hh1⟩, ha0, ha1⟩
  | resumeGame => exact ⟨⟨hh0, hh1⟩, ha0, ha1⟩
  | stopGame => exact ⟨⟨hh0, hh1⟩, ha0, ha1⟩
  | resetGame => exact hinit s.gameId now
  | updateKnightHealth h =>
    simp only [step, updateKnightHealth]
    split
    · exact hinit s.gameId now
    · refine ⟨⟨?_, ?_⟩, ha0, ha1⟩ <;> dsimp only <;> omega
  | updateKnightAttack a =>
    exact ⟨⟨hh0, hh1⟩, by
      constructor <;> simp only [step, updateKnightAttack] <;> omega⟩
  | updateScore sc => exact ⟨⟨hh0, hh1⟩, ha0, ha1⟩
  | addScore pts => exact ⟨⟨hh0, hh1⟩, ha0, ha1⟩
  | nextWave => exact ⟨⟨hh0, hh1⟩, ha0, ha1⟩
  | applyBoost d p =>
    obtain ⟨hp0, hp4⟩ := hop
    exact ⟨⟨hh0, hh1⟩, (boostedAttack_bounds hp0 hp4).1,
      (boostedAttack_bounds hp0 hp4).2⟩
  | removeBoost =>
    refine ⟨⟨hh0, hh1⟩, ?_, ?_⟩ <;>
      norm_num [step, removeBoost, attackInBounds, BASE_KNIGHT_ATTACK]
  | checkBoostExpiry =>
    simp only [step, checkBoostExpiry]
    split
    · refine ⟨⟨hh0, hh1⟩, ?_, ?_⟩ <;>
        norm_num [removeBoost, attackInBounds, BASE_KNIGHT_ATTACK]
    · exact ⟨⟨hh0, hh1⟩, ha0, ha1⟩
  | addActiveDonation d => exact ⟨⟨hh0, hh1⟩, ha0, ha1⟩
  | removeDonation id => exact ⟨⟨hh0, hh1⟩, ha0, ha1⟩
  | addEnemySpawn et dn di si => exact ⟨⟨hh0, hh1⟩, ha0, ha1⟩
  | removeEnemySpawn si => exact ⟨⟨hh0, hh1⟩, ha0, ha1⟩
  | updateFromGame u =>
    simp only [step, updateFromGame]
    split
    · exact hinit s.gameId now
    · cases hu : u.knightHealth with
      | none => refine ⟨⟨?_, ?_⟩, ha0, ha1⟩ <;> simp [hu] <;> omega
      | some x => refine ⟨⟨?_, ?_⟩, ha0, ha1⟩ <;> simp [hu]
  | healEvent amt =>
    simp only [step, updateKnightHealth]
    split
    · exact hinit s.gameId now
    · refine ⟨⟨?_, ?_⟩, ha0, ha1⟩ <;> dsimp only <;> omega

/-- The invariant carries over any operation sequence. -/
lemma stateInBounds_run {s : GameState} (ops : List (Op × Nat))
    (hs : stateInBounds s) (hops : ∀ o ∈ ops, boostOK o.1) :
    stateInBounds (run s ops) := by
  induction ops generalizing s with
  | nil => exact hs
  | cons o rest ih =>
    exact ih (stateInBounds_step o.1 o.2 hs (hops o (List.mem_cons_self o rest)))
      (fun o' h' => hops o' (List.mem_cons_of_mem o h'))

/-- C6 (counterexample): the claim fails as stated — a single admitted
BOOST with `boostPercent = 1000` drives `knightAttack` to 220, outside
the `[0,100]` bound documented on the field (`types/index.ts`);
`applyBoost` performs no clamping. -/
theorem bounds_claim_counterexample :
    ¬ attackInBounds
        (run (createInitialState "game-001" 0) [(Op.applyBoost 600 1000, 5)]) := by
  intro hcontra
  obtain ⟨h0, h1⟩ := hcontra
  have h220 : (run (createInitialState "game-001" 0)
      [(Op.applyBoost 600 1000, 5)]).knightAttack = 220 := by decide
  omega

/-- C6 (amended): for every operation sequence, health stays in `[0,100]`
at every observation point; the attack stays in its documented `[0,100]`
bound provided every boost's percent lies in `[0, 400]` (for larger or
negative percents `applyBoost` leaves the bound, as the counterexample
shows). -/
theorem health_attack_bounds (gameId : String) (t0 : Nat)
    (ops : List (Op × Nat)) (hops : ∀ o ∈ ops, boostOK o.1) :
    healthInBounds (run (createInitialState gameId t0) ops) ∧
    attackInBounds (run (createInitialState gameId t0) ops) := by
  have hinit : stateInBounds (createInitialState gameId t0) := by
    refine ⟨⟨?_, ?_⟩, ?_, ?_⟩ <;> norm_num [createInitialState,
      healthInBounds, attackInBounds, BASE_KNIGHT_ATTACK]
  exact stateInBounds_run ops hinit hops

/-- Witness for the amended C6: a boost, an over-heal, lethal damage and
a client update in sequence keep health and attack inside their bounds. -/
theorem health_attack_bounds_witness :
    (∀ o ∈ [(Op.applyBoost 600 50, 1), (Op.healEvent 500, 2),
            (Op.updateKnightHealth (-40), 3),
            (Op.updateFromGame { score := some (-9) }, 4)], boostOK o.1) ∧
    healthInBounds (run (createInitialState "game-001" 0)
      [(Op.applyBoost 600 50, 1), (Op.healEvent 500, 2),
       (Op.updateKnightHealth (-40), 3),
       (Op.updateFromGame { score := some (-9) }, 4)]) ∧
    attackInBounds (run (createInitialState "game-001" 0)
      [(Op.applyBoost 600 50, 1), (Op.healEvent 500, 2),
       (Op.updateKnightHealth (-40), 3),
       (Op.updateFromGame { score := some (-9) }, 4)]) :=
  ⟨by decide,
   (health_attack_bounds "game-001" 0
      [(Op.applyBoost 600 50, 1), (Op.healEvent 500, 2),
       (Op.updateKnightHealth (-40), 3),
       (Op.updateFromGame { score := some (-9) }, 4)] (by decide)).1,
   (health_attack_bounds "game-001" 0
      [(Op.applyBoost 600 50, 1), (Op.healEvent 500, 2),
       (Op.updateKnightHealth (-40), 3),
       (Op.updateFromGame { score := some (-9) }, 4)] (by decide)).2⟩

/-- The default configuration values from `config.ts` (rate limit 10 per
60 s window, 3 per user, cooldowns 1 s / 5 s / 30 s). -/
def cfgDefault : Config :=
  { donationRateLimit := 10
    donationRateWindow := 60000
    donationPerUserLimit := 3
    boostCooldown := 1
    spawnEnemyCooldown := 5
    spawnDragonCooldown := 30 }

/-- A valid configuration with a global limit of 2, to exercise the
global window with few admissions. -/
def cfgGlobal2 : Config :=
  { cfgDefault with donationRateLimit := 2 }

/-- C3: the code does not behave as the claim (and its own doc comment,
"Record a successful donation (increment counters)") says.  After two
admissions — the full global limit of `cfgGlobal2` — recorded in the
same window, the global counter still reads 0, the next donation from a
third actor is still allowed, and only the per-actor counters were
incremented: `updateGlobalCounter` merely resets expired windows and
nothing ever increments `globalState.count`. -/
theorem globalCounter_never_incremented :
    (recordDonation (recordDonation (initialRateLimiterState 0) cfgGlobal2
        "alice" 0) cfgGlobal2 "bob" 0).globalState.count = 0 ∧
    (checkLimit (recordDonation (recordDonation (initialRateLimiterState 0)
        cfgGlobal2 "alice" 0) cfgGlobal2 "bob" 0) cfgGlobal2 "carol" 1).2
      = none ∧
    (getUserState (recordDonation (recordDonation (initialRateLimiterState 0)
        cfgGlobal2 "alice" 0) cfgGlobal2 "bob" 0) cfgGlobal2 "alice" 1).count
      = 1 := by
  refine ⟨rfl, rfl, rfl⟩

/-- Projection fact: rolling the global window over never touches the
per-user map. -/
lemma updateGlobalCounter_userStates (rl : RateLimiterState) (cfg : Config)
    (now : Nat) : (updateGlobalCounter rl cfg now).userStates = rl.userStates := by
  unfold updateGlobalCounter
  split <;> rfl

/-- C4: an actor who already has `donationPerUserLimit` admissions
recorded inside the current window is rejected as rate-limited when the
kind's cooldown is ready, and the gate consults the cooldown first: when
the kind is still cooling down the reason is the cooldown, not the rate
limit.  (The gate composition itself is modelled from spec §4.3; the
cooldown test, window arithmetic and counters are the embedded source.) -/
theorem perActor_rate_limit_rejects (g : GateState) (cfg : Config)
    (d : DonationEvent) (now : Nat) (u : RateLimitEntry)
    (hu : g.rl.userStates d.viewerId = some u)
    (hwin : now - u.windowStart < cfg.donationRateWindow)
    (hcount : cfg.donationPerUserLimit ≤ u.count)
    (hglobal : (updateGlobalCounter g.rl cfg now).globalState.count
                 < cfg.donationRateLimit) :
    (canProcessEventType g.dq d.eventType now = true →
      (tryAdmit g cfg d now).2 = AdmitResult.rejectedRateLimited) ∧
    (canProcessEventType g.dq d.eventType now = false →
      (tryAdmit g cfg d now).2 = AdmitResult.rejectedCooldown) := by
  have hgu : getUserState (updateGlobalCounter g.rl cfg now) cfg d.viewerId now
      = u := by
    unfold getUserState
    rw [updateGlobalCounter_userStates, hu]
    dsimp only
    rw [if_neg (by omega)]
  have hcheck : (checkLimit g.rl cfg d.viewerId now).2
      = some RateLimitRejection.userLimit := by
    unfold checkLimit
    dsimp only
    rw [if_neg (not_not_intro hglobal), if_pos (by rw [hgu]; omega)]
  constructor
  · intro hc
    unfold tryAdmit
    dsimp only
    rw [if_neg (by simp [hc]), hcheck]
  · intro hc
    unfold tryAdmit
    dsimp only
    rw [if_pos (by simp [hc])]

/-- A gate state in which actor `mallory` has already used up the whole
per-actor window. -/
def gateAtUserLimit : GateState :=
  { dq := initialQueueState
    rl := { globalState := { count := 0, windowStart := 0, lastRequest := 0 }
            userStates := fun id =>
              if id = "mallory" then
                some { count := 3, windowStart := 0, lastRequest := 0 }
              else none } }

/-- A BOOST donation from `mallory`. -/
def malloryBoost : DonationEvent :=
  { donationId := "don-1"
    viewerId := "mallory"
    viewerName := "Mallory"
    amount := 5
    eventType := "BOOST"
    createdAt := 10
    parameters := some { boostPercent := some 50, durationSeconds := some 600 } }

/-- Witness for C4: with the per-actor window full (3 of 3) and the BOOST
cooldown ready, the fourth donation from the same actor is rejected as
rate-limited. -/
theorem perActor_rate_limit_rejects_witness :
    (tryAdmit gateAtUserLimit cfgDefault malloryBoost 10).2
      = AdmitResult.rejectedRateLimited :=
  (perActor_rate_limit_rejects gateAtUserLimit cfgDefault malloryBoost 10
      { count := 3, windowStart := 0, lastRequest := 0 }
      rfl (by decide) (by decide) (by decide)).1 rfl

/-- The ready test is exactly "now is at or past the kind's effective
cooldown expiry". -/
lemma canProcessEventType_iff (qs : QueueState) (t : String) (now : Nat) :
    canProcessEventType qs t now = true ↔ cooldownExpiry qs t ≤ now := by
  unfold canProcessEventType cooldownExpiry
  cases qs.cooldowns t <;> simp

/-- C5: `enqueue` succeeds iff `now` is at or past the kind's cooldown
expiry; on success it appends the event and sets that kind's expiry to
`now + cooldownSeconds*1000`, leaving other kinds untouched; on
rejection queue and cooldowns are unchanged.  Consequently of two
same-kind donations inside the window the first is admitted and the
second rejected, and a third after the expiry is admitted (see the
witness for the SPAWN_DRAGON instance). -/
theorem enqueue_cooldown_spec (qs : QueueState) (cfg : Config)
    (d : DonationEvent) (now : Nat) :
    ((enqueue qs cfg d now).2 = true ↔ cooldownExpiry qs d.eventType ≤ now) ∧
    (cooldownExpiry qs d.eventType ≤ now →
      (enqueue qs cfg d now).1.queue = qs.queue ++ [d] ∧
      cooldownExpiry (enqueue qs cfg d now).1 d.eventType =
        now + getCooldownForEventType cfg d.eventType * 1000 ∧
      ∀ t, t ≠ d.eventType → (enqueue qs cfg d now).1.cooldowns t = qs.cooldowns t) ∧
    (now < cooldownExpiry qs d.eventType →
      (enqueue qs cfg d now).1 = qs ∧ (enqueue qs cfg d now).2 = false) := by
  by_cases h : canProcessEventType qs d.eventType now = true
  · have hexp : cooldownExpiry qs d.eventType ≤ now :=
      (canProcessEventType_iff qs d.eventType now).mp h
    have henq : enqueue qs cfg d now =
        (updateCooldown { qs with queue := qs.queue ++ [d] } cfg d.eventType now,
         true) := by
      unfold enqueue
      rw [if_neg (by simp [h])]
    refine ⟨by rw [henq]; simpa using hexp, fun _ => ⟨?_, ?_, ?_⟩, fun hlt => ?_⟩
    · rw [henq]
      rfl
    · rw [henq]
      unfold cooldownExpiry updateCooldown
      simp
    · intro t ht
      rw [henq]
      unfold updateCooldown
      dsimp only
      rw [if_neg ht]
    · omega
  · have hexp : ¬ cooldownExpiry qs d.eventType ≤ now := fun hc =>
      h ((canProcessEventType_iff qs d.eventType now).mpr hc)
    have henq : enqueue qs cfg d now = (qs, false) := by
      unfold enqueue
      rw [if_pos (by simpa using h)]
    refine ⟨by rw [henq]; simpa using hexp, fun hc => absurd hc hexp,
      fun _ => ⟨by rw [henq], by rw [henq]⟩⟩

/-- First SPAWN_DRAGON donation. -/
def dragon1 : DonationEvent :=
  { donationId := "w1", viewerId := "v1", viewerName := "A", amount := 10
    eventType := "SPAWN_DRAGON", createdAt := 100, parameters := none }

/-- Second SPAWN_DRAGON donation. -/
def dragon2 : DonationEvent :=
  { dragon1 with donationId := "w2", viewerId := "v2" }

/-- Third SPAWN_DRAGON donation. -/
def dragon3 : DonationEvent :=
  { dragon1 with donationId := "w3", viewerId := "v3" }

/-- Witness for C5: with the 30 s dragon cooldown, a SPAWN_DRAGON at
t=100 is admitted, a second at t=15000 (inside the window) is rejected
leaving the state unchanged, and a third at t=30100 (the expiry) is
admitted. -/
theorem enqueue_cooldown_spec_witness :
    (enqueue initialQueueState cfgDefault dragon1 100).2 = true ∧
    (enqueue (enqueue initialQueueState cfgDefault dragon1 100).1 cfgDefault
        dragon2 15000).2 = false ∧
    (enqueue (enqueue initialQueueState cfgDefault dragon1 100).1 cfgDefault
        dragon2 15000).1 = (enqueue initialQueueState cfgDefault dragon1 100).1 ∧
    (enqueue (enqueue initialQueueState cfgDefault dragon1 100).1 cfgDefault
        dragon3 30100).2 = true :=
  ⟨(enqueue_cooldown_spec initialQueueState cfgDefault dragon1 100).1.mpr
      (by decide),
   ((enqueue_cooldown_spec (enqueue initialQueueState cfgDefault dragon1 100).1
      cfgDefault dragon2 15000).2.2 (by decide)).2,
   ((enqueue_cooldown_spec (enqueue initialQueueState cfgDefault dragon1 100).1
      cfgDefault dragon2 15000).2.2 (by decide)).1,
   (enqueue_cooldown_spec (enqueue initialQueueState cfgDefault dragon1 100).1
      cfgDefault dragon3 30100).1.mpr (by decide)⟩

/-- C7: a game-state broadcast reaches every open subscriber whose
identified role is not the excluded `"game"` role, never reaches a
`"game"`-role subscriber (so a state change triggered by a game-client
message is not echoed back to any game client), and always reaches open
`"overlay"` subscribers. -/
theorem broadcastGameState_exclusion (clients : List Client) (c : Client) :
    (c ∈ clients → c.isOpen = true → c.clientType ≠ "game" →
      c ∈ (broadcastGameState clients).1) ∧
    (c ∈ (broadcastGameState clients).1 → c.clientType ≠ "game") ∧
    (c ∈ clients → c.isOpen = true → c.clientType = "overlay" →
      c ∈ (broadcastGameState clients).1) := by
  unfold broadcastGameState broadcast
  dsimp only
  refine ⟨?_, ?_, ?_⟩
  · intro hm ho ht
    exact List.mem_filter.mpr ⟨hm, by simp [ho, ht]⟩
  · intro hm heq
    have hflt := (List.mem_filter.mp hm).2
    simp [heq] at hflt
  · intro hm ho ht
    refine List.mem_filter.mpr ⟨hm, ?_⟩
    rw [ht]
    simp [ho]

/-- Three connected subscribers: a game client, an overlay and a
not-yet-identified one, all with open sockets. -/
def sampleClients : List Client :=
  [{ clientId := "a", clientType := "game", isOpen := true },
   { clientId := "b", clientType := "overlay", isOpen := true },
   { clientId := "c", clientType := "unknown", isOpen := true }]

/-- Witness for C7: broadcasting the game state to `sampleClients`
delivers to the overlay subscriber and not to the game client. -/
theorem broadcastGameState_exclusion_witness :
    ({ clientId := "b", clientType := "overlay", isOpen := true } : Client)
        ∈ (broadcastGameState sampleClients).1 ∧
    ({ clientId := "a", clientType := "game", isOpen := true } : Client)
        ∉ (broadcastGameState sampleClients).1 :=
  ⟨(broadcastGameState_exclusion sampleClients
      { clientId := "b", clientType := "overlay", isOpen := true }).2.2
      (by decide) rfl rfl,
   fun hmem =>
    (broadcastGameState_exclusion sampleClients
      { clientId := "a", clientType := "game", isOpen := true }).2.1 hmem rfl⟩

/-- C8: with no tick in flight and a queued event at the head, one
processor tick always clears the in-flight flag and consumes exactly the
head event (so later events remain to be processed); if applying the
event fails the game state is left as it was, and an unrecognized event
kind also leaves it unchanged. -/
theorem processNextEvent_failure_isolated (st : ProcessorState)
    (e : DonationEvent) (rest : List DonationEvent) (spawnId : String)
    (now : Nat) (hq : st.queue = e :: rest) (hp : st.isProcessing = false) :
    (processNextEvent st spawnId now).isProcessing = false ∧
    (processNextEvent st spawnId now).queue = rest ∧
    (∀ msg, applyEventToGameState e st.game spawnId now = .error msg →
      (processNextEvent st spawnId now).game = st.game) ∧
    (e.eventType ≠ "BOOST" → e.eventType ≠ "HEAL" →
     e.eventType ≠ "SPAWN_ENEMY" → e.eventType ≠ "SPAWN_DRAGON" →
      (processNextEvent st spawnId now).game = st.game) := by
  have hne : ¬ (st.isProcessing = true ∨ st.queue.isEmpty = true) := by
    simp [hp, hq]
  unfold processNextEvent
  rw [if_neg hne, hq]
  dsimp only
  cases happ : applyEventToGameState e st.game spawnId now with
  | ok g' =>
    refine ⟨rfl, rfl, ?_, ?_⟩
    · intro msg hmsg
      cases hmsg
    · intro h1 h2 h3 h4
      have hok : applyEventToGameState e st.game spawnId now = .ok st.game := by
        unfold applyEventToGameState
        rw [if_neg h1, if_neg h2, if_neg h3, if_neg h4]
      have hgg : Except.ok (ε := String) st.game = Except.ok g' :=
        hok.symm.trans happ
      exact (Except.ok.inj hgg).symm
  | error msg => exact ⟨rfl, rfl, fun _ _ => rfl, fun _ _ _ _ => rfl⟩

/-- A malformed BOOST donation: no `parameters` object at all, so the
boost branch throws when it reads `parameters.boostPercent`. -/
def badBoost : DonationEvent :=
  { donationId := "b1", viewerId := "u1", viewerName := "U", amount := 1
    eventType := "BOOST", createdAt := 0, parameters := none }

/-- A donation of a kind the dispatch does not recognize. -/
def confettiEvent : DonationEvent :=
  { donationId := "b2", viewerId := "u2", viewerName := "V", amount := 2
    eventType := "CONFETTI", createdAt := 0, parameters := some {} }

/-- A processor about to tick, with a malformed event at the head of the
queue and an unknown-kind event behind it. -/
def procStart : ProcessorState :=
  { queue := [badBoost, confettiEvent]
    game := createInitialState "game-001" 0
    isProcessing := false }

/-- Witness for C8: the malformed BOOST is dropped without touching the
game state, the in-flight flag is cleared, and the next tick still
processes the following (unknown-kind) event, which leaves the state
unchanged. -/
theorem processNextEvent_failure_isolated_witness :
    (processNextEvent procStart "sp1" 5).game = procStart.game ∧
    (processNextEvent procStart "sp1" 5).queue = [confettiEvent] ∧
    (processNextEvent procStart "sp1" 5).isProcessing = false ∧
    (processNextEvent (processNextEvent procStart "sp1" 5) "sp2" 6).queue
      = [] ∧
    (processNextEvent (processNextEvent procStart "sp1" 5) "sp2" 6).game
      = (processNextEvent procStart "sp1" 5).game :=
  ⟨(processNextEvent_failure_isolated procStart badBoost [confettiEvent]
      "sp1" 5 rfl rfl).2.2.1 "TypeError: cannot read parameters" rfl,
   (processNextEvent_failure_isolated procStart badBoost [confettiEvent]
      "sp1" 5 rfl rfl).2.1,
   (processNextEvent_failure_isolated procStart badBoost [confettiEvent]
      "sp1" 5 rfl rfl).1,
   (processNextEvent_failure_isolated (processNextEvent procStart "sp1" 5)
      confettiEvent [] "sp2" 6 (by decide) (by decide)).2.1,
   (processNextEvent_failure_isolated (processNextEvent procStart "sp1" 5)
      confettiEvent [] "sp2" 6 (by decide) (by decide)).2.2.2
      (by decide) (by decide) (by decide) (by decide)⟩

/-- C10: if one subscribed listener throws during a state mutation, the
state update still commits (the operation still returns the updated
snapshot) and every other listener is still invoked with the new state:
the notification loop catches each listener's exception individually. -/
theorem listener_throw_isolated (s : GameState) (p : GameStatePatch)
    (ls1 ls2 : List Listener) (f : Listener) (now : Nat) (e : String)
    (hf : f (applyPatch s p now) = .error e) :
    (setState s p (ls1 ++ f :: ls2) now).1 = applyPatch s p now ∧
    (setState s p (ls1 ++ f :: ls2) now).2 =
      ls1.map (fun l => l (applyPatch s p now)) ++
        Except.error e :: ls2.map (fun l => l (applyPatch s p now)) := by
  unfold setState notifyAll
  dsimp only
  exact ⟨rfl, by rw [List.map_append, List.map_cons, hf]⟩

/-- A listener that succeeds. -/
def okListener : Listener := fun _ => .ok ()

/-- A listener that always throws. -/
def errListener : Listener := fun _ => Except.error "boom"

/-- A partial update writing only the score. -/
def patchScore5 : GameStatePatch := { score := some 5 }

/-- Witness for C10: with a throwing listener between two healthy ones,
`setState` still commits the patched state, and both healthy listeners
are invoked with the committed snapshot. -/
theorem listener_throw_isolated_witness :
    (setState (createInitialState "game-001" 0) patchScore5
        [okListener, errListener, okListener] 7).1
      = applyPatch (createInitialState "game-001" 0) patchScore5 7 ∧
    (setState (createInitialState "game-001" 0) patchScore5
        [okListener, errListener, okListener] 7).2 =
      [okListener].map
          (fun l => l (applyPatch (createInitialState "game-001" 0) patchScore5 7)) ++
        Except.error "boom" ::
          [okListener].map
            (fun l => l (applyPatch (createInitialState "game-001" 0) patchScore5 7)) :=
  listener_throw_isolated (createInitialState "game-001" 0) patchScore5
    [okListener] [okListener] errListener 7 "boom" rfl

end StreamForge
